import Mathlib

/-!
Shallow embedding of the cold-outreach dispatch engine
(`backend/campaign_worker.py`, `backend/warmup_worker.py`,
`backend/email_sender.py`, `backend/spintax.py`, data model from
`backend/db.py`).

Conventions of the embedding:
* database tables are Lean lists kept in insertion order; a SQL query
  without an ORDER BY clause returns rows in that order (SQLite rowid
  order for this schema);
* wall-clock instants are natural numbers counting seconds, so
  `timedelta(days = d)` is `d * 86400`;
* nullable columns are `Option` values;
* every source of nondeterminism (`random.choice`, `random.randint`,
  `random.uniform`, uuid generation, the SMTP transport outcome, the
  unsubscribe token, the frontend URL) is passed in explicitly through
  an `Oracles` record, and text strings are processed on their
  underlying character lists.
-/

namespace ColdOutreach

/-! ## Character-list string primitives -/

/-- Replace every non-overlapping occurrence of `pat` (scanning left to
right) by `rep`, as Python's `str.replace`. -/
def replaceAllL (pat rep : List Char) : List Char → List Char
  | [] => []
  | c :: rest =>
    if h : pat ≠ [] ∧ pat.isPrefixOf (c :: rest) then
      rep ++ replaceAllL pat rep ((c :: rest).drop pat.length)
    else
      c :: replaceAllL pat rep rest
termination_by l => l.length
decreasing_by
  · simp only [List.length_drop, List.length_cons]
    have : pat.length ≠ 0 := fun hn => h.1 (List.eq_nil_of_length_eq_zero hn)
    omega
  · simp

/-- String wrapper for `replaceAllL`; models Python `str.replace`. -/
def replaceAllS (pat rep s : String) : String :=
  String.mk (replaceAllL pat.data rep.data s.data)

/-- Split a character list at every occurrence of `sep`, as Python's
`str.split(sep)`. -/
def splitOnChar (sep : Char) : List Char → List (List Char)
  | [] => [[]]
  | c :: rest =>
    let r := splitOnChar sep rest
    if c == sep then
      [] :: r
    else
      match r with
      | h :: t => (c :: h) :: t
      | [] => [[c]]

/-- Drop leading and trailing whitespace, as Python's `str.strip()`. -/
def trimChars (l : List Char) : List Char :=
  ((l.dropWhile Char.isWhitespace).reverse.dropWhile Char.isWhitespace).reverse

/-! ## Spintax (`backend/spintax.py`) -/

/-- Leftmost match of the pattern `\{([^{}]+)\}` used at
`spintax.py:27`: an opening brace, a nonempty run of non-brace
characters, a closing brace.  Returns `(prefix, inner, suffix)` for the
first match, scanning positions left to right exactly as `re.search`
does. -/
def findSpin : List Char → Option (List Char × List Char × List Char)
  | [] => none
  | c :: rest =>
    let here : Option (List Char × List Char) :=
      if c == '\x7b' then
        let run := rest.takeWhile (fun d => !(d == '\x7b' || d == '\x7d'))
        match rest.drop run.length with
        | d :: tail => if d == '\x7d' && !run.isEmpty then some (run, tail) else none
        | [] => none
      else none
    match here with
    | some (run, tail) => some ([], run, tail)
    | none =>
      match findSpin rest with
      | some (pre, inner, suf) => some (c :: pre, inner, suf)
      | none => none

/-- The `__BRACE__` sentinel of `spintax.py:41`. -/
def braceTag : List Char := "__BRACE__".data

/-- The bounded rewriting loop of `spintax.render` (`spintax.py:25-41`):
up to `fuel` iterations, each resolving the leftmost innermost brace
group — a pipe group is replaced by one oracle-chosen alternative
(stripped), a pipeless group has its braces replaced by the
`__BRACE__` sentinel. -/
def spinLoop (choice : List String → String) : Nat → List Char → List Char
  | 0, text => text
  | fuel + 1, text =>
    match findSpin text with
    | none => text
    | some (pre, inner, suf) =>
      if inner.contains '|' then
        let options := (splitOnChar '|' inner).map String.mk
        let replacement := trimChars (choice options).data
        spinLoop choice fuel (pre ++ replacement ++ suf)
      else
        spinLoop choice fuel (pre ++ braceTag ++ inner ++ braceTag ++ suf)

/-- The sentinel-restoring tail of `spintax.render`
(`spintax.py:44-46`): `.replace("__BRACE__", "{")`, then
`.replace("__BRACE__", "}")`, then `re.sub(r'__BRACE__', '{', _, count=0)`
(count 0 means unlimited). -/
def restoreBraces (l : List Char) : List Char :=
  replaceAllL braceTag ['\x7b']
    (replaceAllL braceTag ['\x7d'] (replaceAllL braceTag ['\x7b'] l))

/-- The full `spintax.render` (`spintax.py:10-48`): empty text is
returned unchanged, otherwise at most 10 rewriting iterations followed
by sentinel restoration. -/
def spintaxRender (choice : List String → String) (text : String) : String :=
  if text.isEmpty then text
  else String.mk (restoreBraces (spinLoop choice 10 text.data))

/-! ## Template rendering (`backend/email_sender.py`) -/

/-- One entry of a step's `variants` JSON list: an optional subject and
body override (`db.py:170`). -/
structure TemplateVariant where
  subject : Option String
  body : Option String
deriving Repr, DecidableEq

/-- The lead fields exposed to templates, as assembled into `lead_data`
at `campaign_worker.py:130-137`. -/
structure LeadData where
  first_name : String
  last_name : String
  email : String
  company : String
  title : String
  website : String
  phone : String
  city : String
  state : String
  country : String
  industry : String
  custom_fields : List (String × String)
deriving Repr, DecidableEq

/-- The sender fields exposed to templates (`campaign_worker.py:138`). -/
structure SenderData where
  from_name : String
  email : String
deriving Repr, DecidableEq

/-- Python dict `update`: existing keys keep their position but take the
new value, new keys are appended in order. -/
def dictUpdate (base upd : List (String × String)) : List (String × String) :=
  (base.map (fun kv =>
    match upd.find? (fun kv2 => kv2.1 == kv.1) with
    | some kv2 => (kv.1, kv2.2)
    | none => kv)) ++
  upd.filter (fun kv => !(base.any (fun kv0 => kv0.1 == kv.1)))

/-- The ordered variable dictionary built in `render_template`
(`email_sender.py:26-52`): eleven lead fields, then the sender fields
when a sender is given, then the lead's custom fields merged in. -/
def templateVars (lead : LeadData) (sender : Option SenderData) :
    List (String × String) :=
  let base :=
    [("first_name", lead.first_name), ("last_name", lead.last_name),
     ("email", lead.email), ("company", lead.company),
     ("title", lead.title), ("website", lead.website),
     ("phone", lead.phone), ("city", lead.city),
     ("state", lead.state), ("country", lead.country),
     ("industry", lead.industry)]
  let base :=
    match sender with
    | some s => base ++ [("sender_name", s.from_name), ("sender_email", s.email)]
    | none => base
  dictUpdate base lead.custom_fields

/-- Removal of unresolved `{{...}}` placeholders, the
`re.sub(r'\{\{[^}]+\}\}', '', text)` of `email_sender.py:59`: two
opening braces, a nonempty greedy run of non-`}` characters, two
closing braces; failed positions advance by one character. -/
def stripUnresolved : List Char → List Char
  | [] => []
  | c :: rest =>
    if hm : c = '\x7b' ∧ rest.head? = some '\x7b' ∧
        (rest.tail.takeWhile (fun d => !(d == '\x7d'))) ≠ [] ∧
        (rest.tail.drop (rest.tail.takeWhile (fun d => !(d == '\x7d'))).length).take 2
          = ['\x7d', '\x7d'] then
      stripUnresolved
        ((rest.tail.drop (rest.tail.takeWhile (fun d => !(d == '\x7d'))).length).drop 2)
    else
      c :: stripUnresolved rest
termination_by l => l.length
decreasing_by
  · simp only [List.length_drop, List.length_cons, List.length_tail]
    omega
  · simp

/-- The `render_template` of `email_sender.py:19-64`: substitute each
dictionary variable `{{key}}` in order, strip unresolved placeholders,
then resolve spintax. -/
def renderTemplate (choice : List String → String) (text : String)
    (lead : LeadData) (sender : Option SenderData) : String :=
  if text.isEmpty then text
  else
    let t := (templateVars lead sender).foldl
      (fun t kv => replaceAllS ("\x7b\x7b" ++ kv.1 ++ "\x7d\x7d") kv.2 t) text
    let t := String.mk (stripUnresolved t.data)
    spintaxRender choice t

/-! ## Data model (`backend/db.py`) -/

/-- The dispatch-relevant columns of `EmailAccount` (`db.py:65-108`). -/
structure EmailAccount where
  id : String
  email : String
  from_name : String
  status : String
  daily_limit : Nat
  sends_today : Nat
  warmup_enabled : Bool
  warmup_daily_target : Option Nat
  warmup_ramp_days : Option Nat
  warmup_started_at : Option Nat
  signature_html : String
  last_error : Option String
  last_sent_at : Option Nat
deriving Repr, DecidableEq

/-- The dispatch-relevant columns of `Campaign` (`db.py:115-137`). -/
structure Campaign where
  id : String
  user_id : String
  name : String
  status : String
  rotation_strategy : String
  send_window_start : Nat
  send_window_end : Nat
  send_days : Option String
deriving Repr, DecidableEq

/-- `CampaignAccount` link rows (`db.py:148-155`). -/
structure CampaignAccount where
  id : String
  campaign_id : String
  account_id : String
  weight : Nat
  sends_today : Nat
deriving Repr, DecidableEq

/-- `Step` rows (`db.py:161-170`). -/
structure Step where
  id : String
  campaign_id : String
  step_number : Nat
  delay_days : Nat
  subject : String
  body : String
  variants : List TemplateVariant
deriving Repr, DecidableEq

/-- The dispatch-relevant columns of `Lead` (`db.py:176-196`). -/
structure Lead where
  id : String
  user_id : String
  email : String
  first_name : String
  last_name : String
  company : String
  title : String
  phone : String
  website : String
  city : String
  state : String
  country : String
  industry : String
  status : String
  custom_fields : List (String × String)
deriving Repr, DecidableEq

/-- `CampaignLead` rows, the driven per-lead state machine
(`db.py:202-211`). -/
structure CampaignLead where
  id : String
  campaign_id : String
  lead_id : String
  current_step : Nat
  status : String
  last_sent_at : Option Nat
  next_send_at : Option Nat
deriving Repr, DecidableEq

/-- `SentEmail` rows (`db.py:217-240`). -/
structure SentEmail where
  campaign_id : String
  lead_id : String
  account_id : String
  step_id : String
  message_id : Option String
  subject : String
  body_preview : String
  sent_at : Nat
  tracking_id : String
  variant_index : Nat
deriving Repr, DecidableEq

/-- `Unsubscribe` rows (`db.py:276-283`). -/
structure Unsub where
  user_id : String
  email : String
deriving Repr, DecidableEq

/-- `Bounce` rows (`db.py:286-294`). -/
structure Bounce where
  user_id : String
  email : String
  bounce_type : String
  campaign_id : Option String
deriving Repr, DecidableEq

/-- The persistent store: one list per table, in insertion order. -/
structure DB where
  accounts : List EmailAccount
  campaignAccounts : List CampaignAccount
  campaigns : List Campaign
  steps : List Step
  leads : List Lead
  campaignLeads : List CampaignLead
  sentEmails : List SentEmail
  unsubscribes : List Unsub
  bounces : List Bounce
deriving Repr, DecidableEq

/-- Update every `CampaignLead` row with the given id. -/
def DB.updateCL (db : DB) (id : String) (f : CampaignLead → CampaignLead) : DB :=
  { db with campaignLeads := db.campaignLeads.map (fun c => if c.id == id then f c else c) }

/-- Update every `EmailAccount` row with the given id. -/
def DB.updateAccount (db : DB) (id : String) (f : EmailAccount → EmailAccount) : DB :=
  { db with accounts := db.accounts.map (fun a => if a.id == id then f a else a) }

/-- Update every `Lead` row with the given id. -/
def DB.updateLead (db : DB) (id : String) (f : Lead → Lead) : DB :=
  { db with leads := db.leads.map (fun l => if l.id == id then f l else l) }

/-- All sources of nondeterminism and environment consumed by one
dispatch attempt, passed in explicitly. -/
structure Oracles where
  choice : List String → String
  randint : Nat → Nat
  uniform : Nat → ℚ
  pickIdx : Nat → Nat
  uuid : String
  token : String
  frontendUrl : String
  sendResult : Bool × String

/-! ## Candidate selection and account allocation
(`backend/campaign_worker.py`) -/

/-- The `_get_pending_leads` query (`campaign_worker.py:26-38`): join
`CampaignLead` with its `Campaign`, keep pairs where both statuses are
`active` and `next_send_at <= now` (a NULL `next_send_at` never
satisfies the comparison), limited to 20 rows. -/
def getPendingLeads (db : DB) (now : Nat) : List (CampaignLead × Campaign) :=
  ((db.campaignLeads.filterMap (fun cl =>
      (db.campaigns.find? (fun c => c.id == cl.campaign_id)).map (fun c => (cl, c)))).filter
    (fun p => p.2.status == "active" && p.1.status == "active" &&
      (match p.1.next_send_at with
       | some t => Nat.ble t now
       | none => false))).take 20

/-- The campaign's `CampaignAccount` link rows
(`campaign_worker.py:43-45`). -/
def campaignLinks (db : DB) (campaign : Campaign) : List CampaignAccount :=
  db.campaignAccounts.filter (fun l => l.campaign_id == campaign.id)

/-- The eligible-account query of `_pick_account`
(`campaign_worker.py:50-55`): linked accounts whose status is `active`
or `warming` and whose `sends_today` is below `daily_limit`. -/
def eligibleAccounts (db : DB) (campaign : Campaign) : List EmailAccount :=
  let accountIds := (campaignLinks db campaign).map (fun l => l.account_id)
  db.accounts.filter (fun a =>
    accountIds.contains a.id &&
    (a.status == "active" || a.status == "warming") &&
    Nat.blt a.sends_today a.daily_limit)

/-- Cumulative-weight scan of the `weighted` strategy
(`campaign_worker.py:66-71`): the first account whose cumulative weight
reaches the drawn value. -/
def weightedScan (r : ℚ) : List (EmailAccount × Nat) → ℚ → Option EmailAccount
  | [], _ => none
  | (a, w) :: rest, cum =>
    if r ≤ cum + (w : ℚ) then some a else weightedScan r rest (cum + (w : ℚ))

/-- One step of Python's `min(accounts, key=lambda a: a.sends_today)`:
keep the earlier element unless the new one is strictly smaller. -/
def rrFold (b x : EmailAccount) : EmailAccount :=
  if Nat.blt x.sends_today b.sends_today then x else b

/-- The `_pick_account` allocator (`campaign_worker.py:41-74`).  Python's
`min` keeps the earliest list element among ties, which the left fold
with a strict comparison reproduces. -/
def pickAccount (o : Oracles) (db : DB) (campaign : Campaign) : Option EmailAccount :=
  let links := campaignLinks db campaign
  if links.isEmpty then none
  else
    match eligibleAccounts db campaign with
    | [] => none
    | a0 :: rest =>
      if campaign.rotation_strategy == "round_robin" then
        some (rest.foldl rrFold a0)
      else if campaign.rotation_strategy == "weighted" then
        let weighted := (a0 :: rest).map (fun a =>
          (a, (((links.filter (fun l => l.account_id == a.id)).getLast?).map
                (fun l => l.weight)).getD 1))
        let total := (weighted.map (fun p => p.2)).sum
        match weightedScan (o.uniform total) weighted 0 with
        | some a => some a
        | none => some a0
      else
        some ((a0 :: rest).getD (o.pickIdx (rest.length + 1) % (rest.length + 1)) a0)

/-- The `_is_suppressed` check (`campaign_worker.py:77-94`): the address
is on the tenant's unsubscribe list or has a hard bounce. -/
def isSuppressed (db : DB) (user_id email : String) : Bool :=
  db.unsubscribes.any (fun u => u.user_id == user_id && u.email == email) ||
  db.bounces.any (fun b =>
    b.user_id == user_id && b.email == email && b.bounce_type == "hard")

/-! ## The sequencer `_send_one` (`campaign_worker.py:97-243`) -/

/-- A/B variant selection (`campaign_worker.py:141-149`): when the step
has variants, draw `random.randint(0, len(variants))`; a draw in
`1..len` substitutes that variant's subject/body (falling back to the
step's own when the JSON omits a key), any other draw keeps the step
templates.  Returns `(variant_index, subject_template, body_template)`. -/
def chooseVariant (o : Oracles) (step : Step) : Nat × String × String :=
  if step.variants.length > 0 then
    let vi := o.randint step.variants.length
    if vi > 0 && Nat.ble vi step.variants.length then
      match step.variants.get? (vi - 1) with
      | some v => (vi, v.subject.getD step.subject, v.body.getD step.body)
      | none => (vi, step.subject, step.body)
    else (vi, step.subject, step.body)
  else (0, step.subject, step.body)

/-- The unsubscribe footer appended to every body
(`campaign_worker.py:156-159`). -/
def unsubFooter (o : Oracles) : String :=
  "<br><br><small style=\"color:#999;\"><a href=\"" ++ o.frontendUrl ++
    "/unsubscribe?token=" ++ o.token ++
    "\" style=\"color:#999;\">Unsubscribe</a></small>"

/-- One comparison step of the most-recent scan: keep the later row,
preferring the earlier one on equal timestamps. -/
def msFold (b x : SentEmail) : SentEmail :=
  if Nat.blt b.sent_at x.sent_at then x else b

/-- Row with the greatest `sent_at` among the given rows, keeping the
earliest such row on ties; models
`order_by(SentEmail.sent_at.desc()).first()` (`campaign_worker.py:168`). -/
def mostRecentSent : List SentEmail → Option SentEmail
  | [] => none
  | s :: rest => some (rest.foldl msFold s)

/-- Threading-header computation (`campaign_worker.py:161-175`): past
the first step, the most recent prior `SentEmail` of the (lead,
campaign) pair supplies `in-reply-to` when it has a transport id, and
`references` is the space-join of all the pair's recorded transport ids
in table order. -/
def threadingHeaders (db : DB) (leadId campaignId : String) (nextStepNum : Nat) :
    Option String × Option String :=
  if nextStepNum > 1 then
    let prior := db.sentEmails.filter (fun s =>
      s.lead_id == leadId && s.campaign_id == campaignId)
    match mostRecentSent prior with
    | some prev =>
      match prev.message_id with
      | some mid =>
        (some mid, some (String.intercalate " " (prior.filterMap (fun p => p.message_id))))
      | none => (none, none)
    | none => (none, none)
  else (none, none)

/-- The hard-bounce indicator list of `campaign_worker.py:234`. -/
def hardBounceIndicators : List String :=
  ["bounce", "rejected", "not exist", "550", "551", "553"]

/-- Lower-case every character, as Python's `str.lower` on ASCII text. -/
def toLowerS (s : String) : String :=
  String.mk (s.data.map Char.toLower)

/-- Contiguous-substring test, as Python's `in` on strings. -/
def containsSub (pat : List Char) : List Char → Bool
  | [] => pat.isEmpty
  | c :: rest => pat.isPrefixOf (c :: rest) || containsSub pat rest

/-- The inline bounce classification of `campaign_worker.py:234`: some
indicator occurs as a substring of the lower-cased error text. -/
def isHardBounceError (error : String) : Bool :=
  hardBounceIndicators.any (fun kw => containsSub kw.data (toLowerS error).data)

/-- The `lead_data` dictionary of `campaign_worker.py:130-137`. -/
def Lead.toData (l : Lead) : LeadData :=
  { first_name := l.first_name, last_name := l.last_name, email := l.email,
    company := l.company, title := l.title, website := l.website,
    phone := l.phone, city := l.city, state := l.state, country := l.country,
    industry := l.industry, custom_fields := l.custom_fields }

/-- The `_send_one` sequencer (`campaign_worker.py:97-243`): resolve the
lead, check suppression, fetch the next step, allocate an account,
render, send through the transport oracle, and write the outcome back.
The rendered threading headers (`threadingHeaders`) and message texts
only flow into the transport call and the persisted `SentEmail`. -/
def sendOne (o : Oracles) (now : Nat) (db : DB) (cl : CampaignLead)
    (campaign : Campaign) : DB :=
  match db.leads.find? (fun l => l.id == cl.lead_id) with
  | none => db
  | some lead =>
    if isSuppressed db campaign.user_id lead.email then
      db.updateCL cl.id (fun c => { c with status := "unsubscribed" })
    else
      let nextStepNum := cl.current_step + 1
      match db.steps.find? (fun s =>
          s.campaign_id == campaign.id && s.step_number == nextStepNum) with
      | none => db.updateCL cl.id (fun c => { c with status := "completed" })
      | some step =>
        match pickAccount o db campaign with
        | none => db
        | some account =>
          let v := chooseVariant o step
          let subject := renderTemplate o.choice v.2.1 lead.toData
            (some { from_name := account.from_name, email := account.email })
          let body := renderTemplate o.choice v.2.2 lead.toData
            (some { from_name := account.from_name, email := account.email })
            ++ unsubFooter o
          if o.sendResult.1 then
            let sent : SentEmail :=
              { campaign_id := campaign.id, lead_id := lead.id,
                account_id := account.id, step_id := step.id,
                message_id := some o.sendResult.2, subject := subject,
                body_preview := body.take 200, sent_at := now,
                tracking_id := o.uuid, variant_index := v.1 }
            let db1 : DB := { db with sentEmails := db.sentEmails ++ [sent] }
            let nextStep := db1.steps.find? (fun s =>
              s.campaign_id == campaign.id && s.step_number == nextStepNum + 1)
            let db2 := db1.updateCL cl.id (fun c =>
              match nextStep with
              | some ns =>
                { c with current_step := nextStepNum, last_sent_at := some now,
                         next_send_at := some (now + ns.delay_days * 86400) }
              | none =>
                { c with current_step := nextStepNum, last_sent_at := some now,
                         status := "completed", next_send_at := none })
            db2.updateAccount account.id (fun a =>
              { a with sends_today := a.sends_today + 1, last_sent_at := some now })
          else
            let error := o.sendResult.2
            let db1 := db.updateAccount account.id (fun a =>
              { a with last_error := some (error.take 200) })
            if isHardBounceError error then
              let db2 := db1.updateCL cl.id (fun c => { c with status := "bounced" })
              let db3 : DB := { db2 with bounces := db2.bounces ++
                [{ user_id := campaign.user_id, email := lead.email,
                   bounce_type := "hard", campaign_id := some campaign.id }] }
              db3.updateLead lead.id (fun l => { l with status := "bounced" })
            else db1

/-! ## The dispatch loop's midnight reset (`campaign_worker.py:255-260`) -/

/-- A wall-clock reading taken by one loop iteration. -/
structure WallClock where
  day : Nat
  hour : Nat
  minute : Nat
deriving Repr, DecidableEq

/-- The per-iteration reset of `_worker_loop`
(`campaign_worker.py:256-260`): when the reading falls in the UTC minute
00:00, zero every account's and every link's `sends_today`; otherwise do
nothing.  No last-reset marker exists anywhere in the worker state. -/
def midnightReset (db : DB) (t : WallClock) : DB :=
  if t.hour == 0 && t.minute == 0 then
    { db with
        accounts := db.accounts.map (fun a => { a with sends_today := 0 }),
        campaignAccounts := db.campaignAccounts.map (fun l => { l with sends_today := 0 }) }
  else db

/-! ## Warmup scheduler (`backend/warmup_worker.py`) -/

/-- The `_calc_daily_target` ramp (`warmup_worker.py:58-78`).  Python's
`or` defaults make a missing or zero `warmup_daily_target` become 40 and
a missing or zero `warmup_ramp_days` become 30; without a warmup start
time the target is 2; `days_warming` is whole elapsed days. -/
def calcDailyTarget (now : Nat) (a : EmailAccount) : Nat :=
  match a.warmup_started_at with
  | none => 2
  | some started =>
    let days_warming := (now - started) / 86400
    let target := match a.warmup_daily_target with
      | none => 40
      | some 0 => 40
      | some (t + 1) => t + 1
    let ramp_days := match a.warmup_ramp_days with
      | none => 30
      | some 0 => 30
      | some (r + 1) => r + 1
    if days_warming ≤ 3 then 2
    else if days_warming ≤ 7 then 5
    else if days_warming ≤ 14 then 10
    else if days_warming ≤ 21 then 20
    else if days_warming ≤ ramp_days then min 30 target
    else target

/-- The warmup-pool selection of `_warmup_cycle`
(`warmup_worker.py:86-89`): warmup-enabled accounts whose status is
`active` or `warming`. -/
def warmupEligible (a : EmailAccount) : Bool :=
  a.warmup_enabled && (a.status == "active" || a.status == "warming")

/-- The status effect of one error-free `_warmup_cycle`
(`warmup_worker.py:81-207`) on the accounts table: with fewer than two
selected accounts the cycle skips (`warmup_worker.py:91-93`), otherwise
every selected account's iteration ends with the unconditional
assignment of `warmup_worker.py:199`, `status = "warming" if
warmup_enabled else "active"`.  Sends, warmup logs and the
floating-point score touch no status column. -/
def warmupCycleStatus (db : DB) : DB :=
  let selected := db.accounts.filter warmupEligible
  if selected.length < 2 then db
  else
    { db with accounts := db.accounts.map (fun a =>
        if warmupEligible a then
          { a with status := if a.warmup_enabled then "warming" else "active" }
        else a) }

/-! ## Concrete fixtures used by witnesses and counterexamples -/

/-- A healthy active sending account. -/
def accA : EmailAccount :=
  { id := "a1", email := "a1@x.com", from_name := "A", status := "active",
    daily_limit := 40, sends_today := 0, warmup_enabled := false,
    warmup_daily_target := none, warmup_ramp_days := none,
    warmup_started_at := none, signature_html := "", last_error := none,
    last_sent_at := none }

/-- The campaign-account link for `accA`. -/
def linkA : CampaignAccount :=
  { id := "l1", campaign_id := "c1", account_id := "a1", weight := 1, sends_today := 0 }

/-- An active round-robin campaign. -/
def campA : Campaign :=
  { id := "c1", user_id := "u1", name := "camp", status := "active",
    rotation_strategy := "round_robin", send_window_start := 9,
    send_window_end := 17, send_days := none }

/-- An active lead. -/
def leadA : Lead :=
  { id := "p1", user_id := "u1", email := "p@x.com", first_name := "Sam",
    last_name := "", company := "", title := "", phone := "", website := "",
    city := "", state := "", country := "", industry := "", status := "active",
    custom_fields := [] }

/-- A campaign lead before its first step, due at time 50. -/
def clA : CampaignLead :=
  { id := "cl1", campaign_id := "c1", lead_id := "p1", current_step := 0,
    status := "active", last_sent_at := none, next_send_at := some 50 }

/-- Step 1 of the fixture campaign. -/
def stepA1 : Step :=
  { id := "s1", campaign_id := "c1", step_number := 1, delay_days := 0,
    subject := "su", body := "bo", variants := [] }

/-- Step 2 of the fixture campaign, due 3 days after step 1. -/
def stepA2 : Step :=
  { id := "s2", campaign_id := "c1", step_number := 2, delay_days := 3,
    subject := "su2", body := "bo2", variants := [] }

/-- A two-step single-lead store ready for dispatch. -/
def dbFix : DB :=
  { accounts := [accA], campaignAccounts := [linkA], campaigns := [campA],
    steps := [stepA1, stepA2], leads := [leadA], campaignLeads := [clA],
    sentEmails := [], unsubscribes := [], bounces := [] }

/-- Deterministic oracles with a successful transport call. -/
def oSucc : Oracles :=
  { choice := fun l => l.headD "", randint := fun _ => 0, uniform := fun _ => 0,
    pickIdx := fun _ => 0, uuid := "u-1", token := "tok", frontendUrl := "F",
    sendResult := (true, "mid-1") }

/-- Oracles whose transport call fails with a hard-bounce error text. -/
def oHard : Oracles := { oSucc with sendResult := (false, "recipient rejected (550)") }

/-- Oracles whose transport call fails with a transient error text. -/
def oSoft : Oracles := { oSucc with sendResult := (false, "connection timed out") }

/-- A campaign lead that has exhausted a two-step sequence, still
holding a scheduled `next_send_at`. -/
def clB : CampaignLead :=
  { id := "cl2", campaign_id := "c1", lead_id := "p1", current_step := 2,
    status := "active", last_sent_at := some 40, next_send_at := some 500 }

/-- The fixture store with `clB` enrolled instead of `clA`. -/
def dbFixB : DB := { dbFix with campaignLeads := [clB] }

/-- Prior sent mail for the threading fixture: step 1 at time 10. -/
def seA1 : SentEmail :=
  { campaign_id := "c1", lead_id := "p1", account_id := "a1", step_id := "s1",
    message_id := some "m1", subject := "su", body_preview := "", sent_at := 10,
    tracking_id := "t1", variant_index := 0 }

/-- Prior sent mail for the threading fixture: step 2 at time 20. -/
def seA2 : SentEmail :=
  { campaign_id := "c1", lead_id := "p1", account_id := "a1", step_id := "s2",
    message_id := some "m2", subject := "su2", body_preview := "", sent_at := 20,
    tracking_id := "t2", variant_index := 0 }

/-- The fixture store after two recorded sends. -/
def dbFixSent : DB := { dbFix with sentEmails := [seA1, seA2] }

/-- A warmup-enabled copy of `accA`. -/
def accW1 : EmailAccount :=
  { accA with warmup_enabled := true, warmup_started_at := some 0 }

/-- A second warmup-enabled account, already `warming`. -/
def accW2 : EmailAccount :=
  { accA with
      id := "a2"
      email := "a2@x.com"
      status := "warming"
      warmup_enabled := true
      warmup_started_at := some 0 }

/-- Two warmup-enabled accounts, one `active` and one `warming`. -/
def dbFixWarm : DB := { dbFix with accounts := [accW1, accW2] }

/-! ## Helper lemmas -/

/-- A conditional-update map rewrites the first row matching `p` to its
image under `f`, provided `f` preserves `p`. -/
theorem find?_map_ite_update {α : Type} (p : α → Bool) (f : α → α)
    (hf : ∀ a, p a = true → p (f a) = true) :
    ∀ (l : List α) (x : α), l.find? p = some x →
      (l.map (fun a => if p a then f a else a)).find? p = some (f x)
  | [], x, h => by simp at h
  | b :: t, x, h => by
    by_cases hb : p b = true
    · rw [List.find?_cons_of_pos _ hb] at h
      obtain rfl : b = x := by simpa using h
      simp only [List.map_cons, if_pos hb]
      rw [List.find?_cons_of_pos _ (hf _ hb)]
    · rw [List.find?_cons_of_neg _ hb] at h
      simp only [List.map_cons, if_neg hb]
      rw [List.find?_cons_of_neg _ hb]
      exact find?_map_ite_update p f hf t x h

/-- The round-robin fold keeps an element with `sends_today` no larger
than either argument's. -/
theorem rrFold_le_left (b x : EmailAccount) :
    (rrFold b x).sends_today ≤ b.sends_today := by
  unfold rrFold
  split
  · next h => exact Nat.le_of_lt (Nat.blt_eq.mp h)
  · exact Nat.le_refl _

/-- The round-robin fold keeps an element with `sends_today` no larger
than the new candidate's. -/
theorem rrFold_le_right (b x : EmailAccount) :
    (rrFold b x).sends_today ≤ x.sends_today := by
  unfold rrFold
  split
  · exact Nat.le_refl _
  · next h => exact Nat.le_of_not_lt (fun hlt => h (Nat.blt_eq.mpr hlt))

/-- The round-robin fold returns one of its two arguments. -/
theorem rrFold_eq_or (b x : EmailAccount) : rrFold b x = b ∨ rrFold b x = x := by
  unfold rrFold
  split
  · exact Or.inr rfl
  · exact Or.inl rfl

/-- The full round-robin fold returns a member of the scanned list. -/
theorem foldl_rrFold_mem :
    ∀ (rest : List EmailAccount) (a0 : EmailAccount),
      rest.foldl rrFold a0 ∈ a0 :: rest
  | [], a0 => by simp
  | x :: t, a0 => by
    have ih := foldl_rrFold_mem t (rrFold a0 x)
    simp only [List.foldl_cons]
    rcases List.mem_cons.mp ih with h | h
    · rcases rrFold_eq_or a0 x with he | he <;> rw [h, he] <;> simp
    · simp [List.mem_cons, h]

/-- The full round-robin fold attains the minimum `sends_today` of the
scanned list. -/
theorem foldl_rrFold_le :
    ∀ (rest : List EmailAccount) (a0 : EmailAccount),
      ∀ b ∈ a0 :: rest, (rest.foldl rrFold a0).sends_today ≤ b.sends_today
  | [], a0 => by simp
  | x :: t, a0 => by
    intro b hb
    have ih := foldl_rrFold_le t (rrFold a0 x)
    simp only [List.foldl_cons]
    rcases List.mem_cons.mp hb with rfl | hb1
    · exact Nat.le_trans (ih _ (List.mem_cons_self _ _)) (rrFold_le_left b x)
    · rcases List.mem_cons.mp hb1 with rfl | hb2
      · exact Nat.le_trans (ih _ (List.mem_cons_self _ _)) (rrFold_le_right a0 b)
      · exact ih b (List.mem_cons_of_mem _ hb2)

/-- On a list strictly ascending in `sent_at`, the most-recent scan
returns the last row. -/
theorem mostRecentSent_of_chain :
    ∀ (l : List SentEmail),
      List.Chain' (fun a b => a.sent_at < b.sent_at) l →
      mostRecentSent l = l.getLast?
  | [], _ => rfl
  | [s], _ => rfl
  | s :: x :: ts, h => by
    have h1 : s.sent_at < x.sent_at := (List.chain'_cons.mp h).1
    have h2 : List.Chain' (fun a b => a.sent_at < b.sent_at) (x :: ts) :=
      (List.chain'_cons.mp h).2
    have hfold : msFold s x = x := by
      unfold msFold
      rw [if_pos (Nat.blt_eq.mpr h1)]
    have ih := mostRecentSent_of_chain (x :: ts) h2
    simp only [mostRecentSent, List.foldl_cons, hfold] at ih ⊢
    rw [List.getLast?_cons_cons]
    exact ih

/-! ## Claim theorems -/

/-- A store whose only account has sent 5 times and whose only link has
sent 7 times today. -/
def dbBusy : DB :=
  { dbFix with
      accounts := [{ accA with sends_today := 5 }],
      campaignAccounts := [{ linkA with sends_today := 7 }] }

/-- C3, counterexample: the worker-loop reset fires only when an
iteration's wall clock reads hour 0, minute 0.  A day whose iterations
run at 00:01 and 13:00 performs no reset at all, so the counters keep
their stale values — refuting the claim that a reset is never skipped on
a day when the loop is busy at midnight. -/
theorem c3_busy_day_reset_skipped :
    ((midnightReset (midnightReset dbBusy ⟨3, 0, 1⟩) ⟨3, 13, 0⟩).accounts.map
        (fun a => a.sends_today) = [5])
    ∧ ((midnightReset (midnightReset dbBusy ⟨3, 0, 1⟩) ⟨3, 13, 0⟩).campaignAccounts.map
        (fun l => l.sends_today) = [7]) := by
  decide

/-- C3, amended: each dispatch-loop iteration resets every account's and
every link's `sends_today` to zero exactly when its wall-clock reading
falls in the UTC minute 00:00 (hour = 0 and minute = 0), and leaves the
store untouched otherwise; no last-reset-date marker is kept, so the
reset fires once per iteration landing in that minute and not at all on
a day with no such iteration. -/
theorem c3_reset_only_in_midnight_minute (db : DB) (t : WallClock) :
    (t.hour = 0 ∧ t.minute = 0 →
      midnightReset db t =
        { db with
            accounts := db.accounts.map (fun a => { a with sends_today := 0 }),
            campaignAccounts :=
              db.campaignAccounts.map (fun l => { l with sends_today := 0 }) })
    ∧ (¬(t.hour = 0 ∧ t.minute = 0) → midnightReset db t = db) := by
  constructor
  · intro h
    simp [midnightReset, h.1, h.2]
  · intro h
    have hc : (t.hour == 0 && t.minute == 0) = false := by
      by_cases h1 : t.hour = 0 <;> by_cases h2 : t.minute = 0 <;>
        simp [h1, h2] at h ⊢
    simp [midnightReset, hc]

/-- C3, witness: at 00:00 the counters of `dbBusy` are zeroed, at 00:05
nothing changes. -/
theorem c3_reset_only_in_midnight_minute_witness :
    (midnightReset dbBusy ⟨3, 0, 0⟩ =
      { dbBusy with
          accounts := dbBusy.accounts.map (fun a => { a with sends_today := 0 }),
          campaignAccounts :=
            dbBusy.campaignAccounts.map (fun l => { l with sends_today := 0 }) })
    ∧ midnightReset dbBusy ⟨3, 0, 5⟩ = dbBusy :=
  ⟨(c3_reset_only_in_midnight_minute dbBusy ⟨3, 0, 0⟩).1 ⟨rfl, rfl⟩,
   (c3_reset_only_in_midnight_minute dbBusy ⟨3, 0, 5⟩).2 (by decide)⟩

/-- C4: for a `round_robin` campaign, `_pick_account` returns none on an
empty link set and none when no linked account is eligible; any returned
account is an eligible linked account of minimum `sends_today` (the
deterministic earliest such row in table order); and when it returns
none, `_send_one` leaves the store — in particular the lead's
`next_send_at` — completely unchanged. -/
theorem c4_round_robin_allocator (o : Oracles) (db : DB) (campaign : Campaign)
    (hrr : campaign.rotation_strategy = "round_robin") :
    (campaignLinks db campaign = [] → pickAccount o db campaign = none)
    ∧ (eligibleAccounts db campaign = [] → pickAccount o db campaign = none)
    ∧ (∀ a, pickAccount o db campaign = some a →
        a ∈ eligibleAccounts db campaign ∧
        ∀ b ∈ eligibleAccounts db campaign, a.sends_today ≤ b.sends_today)
    ∧ (∀ (now : Nat) (cl : CampaignLead) (lead : Lead) (step : Step),
        db.leads.find? (fun l => l.id == cl.lead_id) = some lead →
        isSuppressed db campaign.user_id lead.email = false →
        db.steps.find? (fun s => s.campaign_id == campaign.id &&
          s.step_number == cl.current_step + 1) = some step →
        pickAccount o db campaign = none →
        sendOne o now db cl campaign = db) := by
  refine ⟨?_, ?_, ?_, ?_⟩
  · intro h
    simp [pickAccount, h]
  · intro h
    by_cases hl : (campaignLinks db campaign).isEmpty <;> simp [pickAccount, h, hl]
  · intro a hpa
    by_cases hl : (campaignLinks db campaign).isEmpty
    · simp [pickAccount, hl] at hpa
    · rcases he : eligibleAccounts db campaign with _ | ⟨a0, rest⟩
      · simp [pickAccount, he, hl] at hpa
      · simp only [pickAccount, he, hl, Bool.false_eq_true, if_false, hrr,
          beq_self_eq_true, if_true, Option.some.injEq] at hpa
        subst hpa
        exact ⟨foldl_rrFold_mem rest a0, foldl_rrFold_le rest a0⟩
  · intro now cl lead step hlead hsup hstep hnone
    simp [sendOne, hlead, hsup, hstep, hnone]

/-- A fixture store whose only account is ineligible (`paused`). -/
def dbNoEligible : DB := { dbFix with accounts := [{ accA with status := "paused" }] }

/-- C4, witness: on the concrete fixture the allocator's chosen account
is eligible with minimal `sends_today`, and with no eligible account
`_send_one` changes nothing. -/
theorem c4_round_robin_allocator_witness :
    (accA ∈ eligibleAccounts dbFix campA ∧
      ∀ b ∈ eligibleAccounts dbFix campA, accA.sends_today ≤ b.sends_today)
    ∧ sendOne oSucc 1000 dbNoEligible clA campA = dbNoEligible :=
  ⟨(c4_round_robin_allocator oSucc dbFix campA rfl).2.2.1 accA (by decide),
   (c4_round_robin_allocator oSucc dbNoEligible campA rfl).2.2.2 1000 clA leadA stepA1
     (by decide) (by decide) (by decide) (by decide)⟩

/-- C8: the daily warmup target is the ramp function of whole days since
warmup start — 2 up to day 3, then 5 up to day 7, 10 up to day 14, 20 up
to day 21, `min 30 target` up to `ramp_days`, and the configured target
beyond; with no recorded start time the target is 2. -/
theorem c8_warmup_ramp (now : Nat) (a : EmailAccount) :
    (a.warmup_started_at = none → calcDailyTarget now a = 2)
    ∧ (∀ started t r, a.warmup_started_at = some started →
        a.warmup_daily_target = some t → t ≠ 0 →
        a.warmup_ramp_days = some r → r ≠ 0 →
        ((now - started) / 86400 ≤ 3 → calcDailyTarget now a = 2)
        ∧ (3 < (now - started) / 86400 → (now - started) / 86400 ≤ 7 →
            calcDailyTarget now a = 5)
        ∧ (7 < (now - started) / 86400 → (now - started) / 86400 ≤ 14 →
            calcDailyTarget now a = 10)
        ∧ (14 < (now - started) / 86400 → (now - started) / 86400 ≤ 21 →
            calcDailyTarget now a = 20)
        ∧ (21 < (now - started) / 86400 → (now - started) / 86400 ≤ r →
            calcDailyTarget now a = min 30 t)
        ∧ (21 < (now - started) / 86400 → r < (now - started) / 86400 →
            calcDailyTarget now a = t)) := by
  constructor
  · intro h
    simp [calcDailyTarget, h]
  · intro started t r hs ht ht0 hr hr0
    obtain ⟨t', rfl⟩ : ∃ t', t = t' + 1 := ⟨t - 1, by omega⟩
    obtain ⟨r', rfl⟩ : ∃ r', r = r' + 1 := ⟨r - 1, by omega⟩
    simp only [calcDailyTarget, hs, ht, hr]
    refine ⟨fun h1 => ?_, fun h1 h2 => ?_, fun h1 h2 => ?_, fun h1 h2 => ?_,
      fun h1 h2 => ?_, fun h1 h2 => ?_⟩
    · rw [if_pos h1]
    · rw [if_neg (by omega), if_pos h2]
    · rw [if_neg (by omega), if_neg (by omega), if_pos h2]
    · rw [if_neg (by omega), if_neg (by omega), if_neg (by omega), if_pos h2]
    · rw [if_neg (by omega), if_neg (by omega), if_neg (by omega),
        if_neg (by omega), if_pos h2]
    · rw [if_neg (by omega), if_neg (by omega), if_neg (by omega),
        if_neg (by omega), if_neg (by omega)]

/-- A 40-per-day warmup account whose ramp lasts 30 days. -/
def accRamp : EmailAccount :=
  { accA with
      warmup_started_at := some 0
      warmup_daily_target := some 40
      warmup_ramp_days := some 30 }

/-- C8, witness: 5 days of warming give target 5; 30 days with a 30-day
ramp and target 40 give 30; 40 days give 40. -/
theorem c8_warmup_ramp_witness :
    calcDailyTarget (5 * 86400) accRamp = 5
    ∧ calcDailyTarget (30 * 86400) accRamp = 30
    ∧ calcDailyTarget (40 * 86400) accRamp = 40 :=
  ⟨((c8_warmup_ramp (5 * 86400) accRamp).2 0 40 30 rfl rfl (by decide) rfl
      (by decide)).2.1 (by decide) (by decide),
   (((c8_warmup_ramp (30 * 86400) accRamp).2 0 40 30 rfl rfl (by decide) rfl
      (by decide)).2.2.2.2.1 (by decide) (by decide)).trans (by decide),
   ((c8_warmup_ramp (40 * 86400) accRamp).2 0 40 30 rfl rfl (by decide) rfl
      (by decide)).2.2.2.2.2 (by decide) (by decide)⟩

/-- C10: once a warmup cycle actually runs (at least two selected
accounts), every selected warmup-enabled account — in particular one
that entered with status `active` — ends the cycle with status
`warming`, because the per-account iteration unconditionally overwrites
the status field. -/
theorem c10_warmup_overwrites_status (db : DB)
    (hsel : 2 ≤ (db.accounts.filter warmupEligible).length) :
    ∀ a ∈ db.accounts, a.warmup_enabled = true →
      (a.status = "active" ∨ a.status = "warming") →
      ∃ a' ∈ (warmupCycleStatus db).accounts, a'.id = a.id ∧ a'.status = "warming" := by
  intro a ha hen hst
  have helig : warmupEligible a = true := by
    rcases hst with h | h <;> simp [warmupEligible, hen, h]
  have hcond : ¬ (db.accounts.filter warmupEligible).length < 2 := by omega
  refine ⟨{ a with status := if a.warmup_enabled then "warming" else "active" },
    ?_, rfl, ?_⟩
  · simp only [warmupCycleStatus, if_neg hcond]
    have hmem := List.mem_map_of_mem
      (fun a => if warmupEligible a then
        { a with status := if a.warmup_enabled then "warming" else "active" }
       else a) ha
    simpa [helig] using hmem
  · simp [hen]

/-- C10, witness: in a pool of two warmup-enabled accounts, the one that
entered the cycle `active` leaves it `warming`. -/
theorem c10_warmup_overwrites_status_witness :
    ∃ a' ∈ (warmupCycleStatus dbFixWarm).accounts, a'.id = accW1.id ∧ a'.status = "warming" :=
  c10_warmup_overwrites_status dbFixWarm (by decide) accW1 (by decide) rfl
    (Or.inl rfl)

/-- C2, counterexample: a lead at step 2 of a two-step campaign is
marked `completed` when no step 3 exists, but its `next_send_at` keeps
the stale value 500 instead of being cleared to null as the claim
states. -/
theorem c2_next_send_at_not_cleared :
    (sendOne oSucc 1000 dbFixB clB campA).campaignLeads.map
      (fun c => (c.status, c.next_send_at)) = [("completed", some 500)] := by
  decide

/-- C2, amended: when the next step (`current_step + 1`) does not exist,
`_send_one` sets the link status to `completed` and stops without
attempting any send; every other field of the link — including
`next_send_at`, which keeps its previous value — and every other table
are left unchanged. -/
theorem c2_missing_step_marks_completed (o : Oracles) (now : Nat) (db : DB)
    (cl : CampaignLead) (campaign : Campaign) (lead : Lead)
    (hlead : db.leads.find? (fun l => l.id == cl.lead_id) = some lead)
    (hsup : isSuppressed db campaign.user_id lead.email = false)
    (hstep : db.steps.find? (fun s => s.campaign_id == campaign.id &&
        s.step_number == cl.current_step + 1) = none)
    (hcl : db.campaignLeads.find? (fun c => c.id == cl.id) = some cl) :
    ((sendOne o now db cl campaign).campaignLeads.find? (fun c => c.id == cl.id) =
        some { cl with status := "completed" })
    ∧ (sendOne o now db cl campaign).accounts = db.accounts
    ∧ (sendOne o now db cl campaign).campaignAccounts = db.campaignAccounts
    ∧ (sendOne o now db cl campaign).sentEmails = db.sentEmails
    ∧ (sendOne o now db cl campaign).leads = db.leads
    ∧ (sendOne o now db cl campaign).bounces = db.bounces
    ∧ (sendOne o now db cl campaign).unsubscribes = db.unsubscribes := by
  have hred : sendOne o now db cl campaign =
      db.updateCL cl.id (fun c => { c with status := "completed" }) := by
    simp [sendOne, hlead, hsup, hstep]
  rw [hred]
  refine ⟨?_, rfl, rfl, rfl, rfl, rfl, rfl⟩
  exact find?_map_ite_update (fun c => c.id == cl.id)
    (fun c => { c with status := "completed" }) (fun a h => h)
    db.campaignLeads cl hcl

/-- C2, witness: the amended behaviour on the concrete exhausted-lead
fixture. -/
theorem c2_missing_step_marks_completed_witness :
    ((sendOne oSucc 1000 dbFixB clB campA).campaignLeads.find?
        (fun c => c.id == clB.id) = some { clB with status := "completed" })
    ∧ (sendOne oSucc 1000 dbFixB clB campA).sentEmails = dbFixB.sentEmails :=
  ⟨(c2_missing_step_marks_completed oSucc 1000 dbFixB clB campA leadA
      (by decide) (by decide) (by decide) (by decide)).1,
   (c2_missing_step_marks_completed oSucc 1000 dbFixB clB campA leadA
      (by decide) (by decide) (by decide) (by decide)).2.2.2.1⟩

/-- C6: past the first step, with the (lead, campaign) pair's prior
`SentEmail` rows strictly ascending in `sent_at` (oldest first in table
order) and the most recent one carrying a transport id, `_send_one`'s
threading computation returns that id as `in-reply-to` and the
space-join of all prior transport ids, oldest first, as `references`. -/
theorem c6_threading_headers (db : DB) (leadId campaignId : String) (n : Nat)
    (prior : List SentEmail) (prev : SentEmail) (mid : String)
    (hn : 1 < n)
    (hp : db.sentEmails.filter (fun s =>
        s.lead_id == leadId && s.campaign_id == campaignId) = prior)
    (hchain : List.Chain' (fun a b => a.sent_at < b.sent_at) prior)
    (hlast : prior.getLast? = some prev)
    (hm : prev.message_id = some mid) :
    threadingHeaders db leadId campaignId n =
      (some mid, some (String.intercalate " "
        (prior.filterMap (fun p => p.message_id)))) := by
  simp only [threadingHeaders, hp, if_pos hn,
    mostRecentSent_of_chain prior hchain, hlast, hm]

/-- C6, witness: message 3 of a 3-step sequence threads onto message 2's
transport id, with `references` listing message 1 then message 2. -/
theorem c6_threading_headers_witness :
    threadingHeaders dbFixSent "p1" "c1" 3 = (some "m2", some "m1 m2") :=
  c6_threading_headers dbFixSent "p1" "c1" 3 [seA1, seA2] seA2 "m2"
    (by decide) (by decide)
    (List.chain'_cons.mpr ⟨by decide, List.chain'_singleton seA2⟩)
    (by decide) rfl

/-- C1, counterexample: a fully successful dispatch (the `SentEmail` is
persisted) leaves the campaign-account link's `sends_today` at 0 — the
code never increments the link counter, refuting the claim that both
counters go up by 1. -/
theorem c1_link_counter_not_incremented :
    (sendOne oSucc 1000 dbFix clA campA).sentEmails.length = 1
    ∧ (sendOne oSucc 1000 dbFix clA campA).campaignAccounts.map
        (fun l => l.sends_today) = [0] := by
  decide

/-- C1, amended: on a successful dispatch `_send_one` persists a
`SentEmail` for the pair with the transport id, advances `current_step`
by exactly 1, updates `last_sent_at`, sets `next_send_at` to now plus
the following step's delay (in days) or clears it to null with status
`completed` when no following step exists, and increments the chosen
account's `sends_today` by 1; the campaign-account link rows — including
their `sends_today` counters — are left unchanged. -/
theorem c1_success_dispatch_effects (o : Oracles) (now : Nat) (db : DB)
    (cl : CampaignLead) (campaign : Campaign) (lead : Lead) (step : Step)
    (account : EmailAccount)
    (hlead : db.leads.find? (fun l => l.id == cl.lead_id) = some lead)
    (hsup : isSuppressed db campaign.user_id lead.email = false)
    (hstep : db.steps.find? (fun s => s.campaign_id == campaign.id &&
        s.step_number == cl.current_step + 1) = some step)
    (hpick : pickAccount o db campaign = some account)
    (hcl : db.campaignLeads.find? (fun c => c.id == cl.id) = some cl)
    (hacc : db.accounts.find? (fun a => a.id == account.id) = some account)
    (hok : o.sendResult.1 = true) :
    (∃ sent, (sendOne o now db cl campaign).sentEmails = db.sentEmails ++ [sent]
      ∧ sent.campaign_id = campaign.id ∧ sent.lead_id = lead.id
      ∧ sent.account_id = account.id ∧ sent.step_id = step.id
      ∧ sent.message_id = some o.sendResult.2)
    ∧ (∃ cl', (sendOne o now db cl campaign).campaignLeads.find?
          (fun c => c.id == cl.id) = some cl'
      ∧ cl'.current_step = cl.current_step + 1
      ∧ cl'.last_sent_at = some now
      ∧ (∀ ns, db.steps.find? (fun s => s.campaign_id == campaign.id &&
            s.step_number == cl.current_step + 1 + 1) = some ns →
          cl'.next_send_at = some (now + ns.delay_days * 86400) ∧ cl'.status = cl.status)
      ∧ (db.steps.find? (fun s => s.campaign_id == campaign.id &&
            s.step_number == cl.current_step + 1 + 1) = none →
          cl'.next_send_at = none ∧ cl'.status = "completed"))
    ∧ (∃ a', (sendOne o now db cl campaign).accounts.find?
          (fun a => a.id == account.id) = some a'
      ∧ a'.sends_today = account.sends_today + 1
      ∧ a'.last_sent_at = some now)
    ∧ (sendOne o now db cl campaign).campaignAccounts = db.campaignAccounts := by
  refine ⟨?_, ?_, ?_, ?_⟩
  · simp only [sendOne, hlead, hsup, Bool.false_eq_true, if_false, hstep, hpick,
      hok, if_true, DB.updateCL, DB.updateAccount]
    exact ⟨_, rfl, rfl, rfl, rfl, rfl, rfl⟩
  · cases hns : db.steps.find? (fun s => s.campaign_id == campaign.id &&
        s.step_number == cl.current_step + 1 + 1) with
    | none =>
      refine ⟨{ cl with current_step := cl.current_step + 1, last_sent_at := some now, status := "completed", next_send_at := none },
        ?_, rfl, rfl, fun ns hns2 => Option.noConfusion hns2,
        fun _ => ⟨rfl, rfl⟩⟩
      simp only [sendOne, hlead, hsup, Bool.false_eq_true, if_false, hstep, hpick,
        hok, if_true, hns, DB.updateCL, DB.updateAccount]
      exact find?_map_ite_update (fun c => c.id == cl.id)
        (fun c => { c with current_step := cl.current_step + 1, last_sent_at := some now, status := "completed", next_send_at := none })
        (fun a h => h) db.campaignLeads cl hcl
    | some ns =>
      refine ⟨{ cl with current_step := cl.current_step + 1, last_sent_at := some now, next_send_at := some (now + ns.delay_days * 86400) },
        ?_, rfl, rfl,
        fun ns2 hns2 => by cases hns2; exact ⟨rfl, rfl⟩,
        fun hns2 => Option.noConfusion hns2⟩
      simp only [sendOne, hlead, hsup, Bool.false_eq_true, if_false, hstep, hpick,
        hok, if_true, hns, DB.updateCL, DB.updateAccount]
      exact find?_map_ite_update (fun c => c.id == cl.id)
        (fun c => { c with current_step := cl.current_step + 1, last_sent_at := some now, next_send_at := some (now + ns.delay_days * 86400) })
        (fun a h => h) db.campaignLeads cl hcl
  · refine ⟨{ account with sends_today := account.sends_today + 1, last_sent_at := some now },
      ?_, rfl, rfl⟩
    simp only [sendOne, hlead, hsup, Bool.false_eq_true, if_false, hstep, hpick,
      hok, if_true, DB.updateCL, DB.updateAccount]
    exact find?_map_ite_update (fun a => a.id == account.id)
      (fun a => { a with sends_today := a.sends_today + 1, last_sent_at := some now })
      (fun a h => h) db.accounts account hacc
  · simp only [sendOne, hlead, hsup, Bool.false_eq_true, if_false, hstep, hpick,
      hok, if_true, DB.updateCL, DB.updateAccount]

/-- C1, witness: the amended success effects on the concrete two-step
fixture. -/
theorem c1_success_dispatch_effects_witness :
    (∃ a', (sendOne oSucc 1000 dbFix clA campA).accounts.find?
        (fun a => a.id == accA.id) = some a'
      ∧ a'.sends_today = accA.sends_today + 1 ∧ a'.last_sent_at = some 1000)
    ∧ (sendOne oSucc 1000 dbFix clA campA).campaignAccounts = dbFix.campaignAccounts :=
  ⟨(c1_success_dispatch_effects oSucc 1000 dbFix clA campA leadA stepA1 accA
      (by decide) (by decide) (by decide) (by decide) (by decide) (by decide)
      rfl).2.2.1,
   (c1_success_dispatch_effects oSucc 1000 dbFix clA campA leadA stepA1 accA
      (by decide) (by decide) (by decide) (by decide) (by decide) (by decide)
      rfl).2.2.2⟩

/-- C5: on a failed transport call `_send_one` records the error on the
account truncated to 200 characters without touching its send counter;
when the lower-cased error text contains a hard-bounce indicator
(`bounce`, `rejected`, `not exist`, `550`, `551`, `553`) the link and
the lead are marked `bounced` and a hard `Bounce` row is appended;
otherwise the campaign-lead rows, lead rows and bounce rows — hence the
link's `active` status and its `next_send_at` — are unchanged, and no
`SentEmail` is recorded in either case. -/
theorem c5_failure_classification (o : Oracles) (now : Nat) (db : DB)
    (cl : CampaignLead) (campaign : Campaign) (lead : Lead) (step : Step)
    (account : EmailAccount)
    (hlead : db.leads.find? (fun l => l.id == cl.lead_id) = some lead)
    (hsup : isSuppressed db campaign.user_id lead.email = false)
    (hstep : db.steps.find? (fun s => s.campaign_id == campaign.id &&
        s.step_number == cl.current_step + 1) = some step)
    (hpick : pickAccount o db campaign = some account)
    (hcl : db.campaignLeads.find? (fun c => c.id == cl.id) = some cl)
    (hacc : db.accounts.find? (fun a => a.id == account.id) = some account)
    (hleadf : db.leads.find? (fun l => l.id == lead.id) = some lead)
    (hfail : o.sendResult.1 = false) :
    (∃ a', (sendOne o now db cl campaign).accounts.find?
        (fun a => a.id == account.id) = some a'
      ∧ a'.last_error = some (o.sendResult.2.take 200)
      ∧ a'.sends_today = account.sends_today)
    ∧ (isHardBounceError o.sendResult.2 = true →
        (sendOne o now db cl campaign).campaignLeads.find?
            (fun c => c.id == cl.id) = some { cl with status := "bounced" }
        ∧ (sendOne o now db cl campaign).leads.find?
            (fun l => l.id == lead.id) = some { lead with status := "bounced" }
        ∧ (sendOne o now db cl campaign).bounces = db.bounces ++
            [{ user_id := campaign.user_id, email := lead.email,
               bounce_type := "hard", campaign_id := some campaign.id }])
    ∧ (isHardBounceError o.sendResult.2 = false →
        (sendOne o now db cl campaign).campaignLeads = db.campaignLeads
        ∧ (sendOne o now db cl campaign).leads = db.leads
        ∧ (sendOne o now db cl campaign).bounces = db.bounces)
    ∧ (sendOne o now db cl campaign).sentEmails = db.sentEmails := by
  by_cases hhb : isHardBounceError o.sendResult.2 = true
  · refine ⟨⟨{ account with last_error := some (o.sendResult.2.take 200) }, ?_, rfl, rfl⟩,
      fun _ => ⟨?_, ?_, ?_⟩,
      fun hcon => Bool.noConfusion (hhb.symm.trans hcon), ?_⟩
    · simp only [sendOne, hlead, hsup, Bool.false_eq_true, if_false, hstep, hpick,
        hfail, hhb, if_true, DB.updateCL, DB.updateAccount, DB.updateLead]
      exact find?_map_ite_update (fun a => a.id == account.id)
        (fun a => { a with last_error := some (o.sendResult.2.take 200) })
        (fun a h => h) db.accounts account hacc
    · simp only [sendOne, hlead, hsup, Bool.false_eq_true, if_false, hstep, hpick,
        hfail, hhb, if_true, DB.updateCL, DB.updateAccount, DB.updateLead]
      exact find?_map_ite_update (fun c => c.id == cl.id)
        (fun c => { c with status := "bounced" })
        (fun a h => h) db.campaignLeads cl hcl
    · simp only [sendOne, hlead, hsup, Bool.false_eq_true, if_false, hstep, hpick,
        hfail, hhb, if_true, DB.updateCL, DB.updateAccount, DB.updateLead]
      exact find?_map_ite_update (fun l => l.id == lead.id)
        (fun l => { l with status := "bounced" })
        (fun a h => h) db.leads lead hleadf
    · simp [sendOne, hlead, hsup, hstep, hpick, hfail, hhb,
        DB.updateCL, DB.updateAccount, DB.updateLead]
    · simp [sendOne, hlead, hsup, hstep, hpick, hfail, hhb,
        DB.updateCL, DB.updateAccount, DB.updateLead]
  · have hhb2 : isHardBounceError o.sendResult.2 = false := by
      cases h2 : isHardBounceError o.sendResult.2
      · rfl
      · exact absurd h2 hhb
    refine ⟨⟨{ account with last_error := some (o.sendResult.2.take 200) }, ?_, rfl, rfl⟩,
      fun hcon => Bool.noConfusion (hhb2.symm.trans hcon),
      fun _ => ⟨?_, ?_, ?_⟩, ?_⟩
    · simp only [sendOne, hlead, hsup, Bool.false_eq_true, if_false, hstep, hpick,
        hfail, hhb2, DB.updateCL, DB.updateAccount, DB.updateLead]
      exact find?_map_ite_update (fun a => a.id == account.id)
        (fun a => { a with last_error := some (o.sendResult.2.take 200) })
        (fun a h => h) db.accounts account hacc
    · simp [sendOne, hlead, hsup, hstep, hpick, hfail, hhb2,
        DB.updateCL, DB.updateAccount, DB.updateLead]
    · simp [sendOne, hlead, hsup, hstep, hpick, hfail, hhb2,
        DB.updateCL, DB.updateAccount, DB.updateLead]
    · simp [sendOne, hlead, hsup, hstep, hpick, hfail, hhb2,
        DB.updateCL, DB.updateAccount, DB.updateLead]
    · simp [sendOne, hlead, hsup, hstep, hpick, hfail, hhb2,
        DB.updateCL, DB.updateAccount, DB.updateLead]

/-- C5, witness: a 550-rejected failure on the fixture marks the link
and the lead `bounced` and appends the hard `Bounce` row. -/
theorem c5_failure_classification_witness :
    (sendOne oHard 1000 dbFix clA campA).campaignLeads.find?
        (fun c => c.id == clA.id) = some { clA with status := "bounced" }
    ∧ (sendOne oHard 1000 dbFix clA campA).bounces = dbFix.bounces ++
        [{ user_id := "u1", email := "p@x.com", bounce_type := "hard",
           campaign_id := some "c1" }] :=
  ⟨((c5_failure_classification oHard 1000 dbFix clA campA leadA stepA1 accA
      (by decide) (by decide) (by decide) (by decide) (by decide) (by decide)
      (by decide) rfl).2.1 (by decide)).1,
   ((c5_failure_classification oHard 1000 dbFix clA campA leadA stepA1 accA
      (by decide) (by decide) (by decide) (by decide) (by decide) (by decide)
      (by decide) rfl).2.1 (by decide)).2.2⟩

/-- Case analysis of every `_send_one` branch: the campaign-lead table
is either untouched, or rewritten only at rows with the dispatched
link's id by an id-preserving update that either keeps the status or
sets a non-`active` terminal value. -/
theorem sendOne_campaignLeads_cases (o : Oracles) (now : Nat) (db : DB)
    (cl : CampaignLead) (campaign : Campaign) :
    (sendOne o now db cl campaign).campaignLeads = db.campaignLeads ∨
    ∃ f : CampaignLead → CampaignLead,
      (sendOne o now db cl campaign).campaignLeads =
        db.campaignLeads.map (fun c => if c.id == cl.id then f c else c) ∧
      ∀ c, (f c).id = c.id ∧
        ((f c).status = c.status ∨
          (f c).status ∈ (["unsubscribed", "completed", "bounced"] : List String)) := by
  cases hlead : db.leads.find? (fun l => l.id == cl.lead_id) with
  | none =>
    left
    simp [sendOne, hlead]
  | some lead =>
    by_cases hsup : isSuppressed db campaign.user_id lead.email = true
    · right
      refine ⟨fun c => { c with status := "unsubscribed" }, ?_,
        fun c => ⟨rfl, Or.inr (by simp)⟩⟩
      simp [sendOne, hlead, hsup, DB.updateCL]
    · have hsup2 : isSuppressed db campaign.user_id lead.email = false := by
        simpa using hsup
      cases hstep : db.steps.find? (fun s => s.campaign_id == campaign.id &&
          s.step_number == cl.current_step + 1) with
      | none =>
        right
        refine ⟨fun c => { c with status := "completed" }, ?_,
          fun c => ⟨rfl, Or.inr (by simp)⟩⟩
        simp [sendOne, hlead, hsup2, hstep, DB.updateCL]
      | some step =>
        cases hpick : pickAccount o db campaign with
        | none =>
          left
          simp [sendOne, hlead, hsup2, hstep, hpick]
        | some account =>
          cases hok : o.sendResult.1 with
          | true =>
            cases hns : db.steps.find? (fun s => s.campaign_id == campaign.id &&
                s.step_number == cl.current_step + 1 + 1) with
            | some ns =>
              right
              refine ⟨fun c => { c with current_step := cl.current_step + 1, last_sent_at := some now, next_send_at := some (now + ns.delay_days * 86400) },
                ?_, fun c => ⟨rfl, Or.inl rfl⟩⟩
              simp [sendOne, hlead, hsup2, hstep, hpick, hok, hns,
                DB.updateCL, DB.updateAccount]
            | none =>
              right
              refine ⟨fun c => { c with current_step := cl.current_step + 1, last_sent_at := some now, status := "completed", next_send_at := none },
                ?_, fun c => ⟨rfl, Or.inr (by simp)⟩⟩
              simp [sendOne, hlead, hsup2, hstep, hpick, hok, hns,
                DB.updateCL, DB.updateAccount]
          | false =>
            by_cases hhb : isHardBounceError o.sendResult.2 = true
            · right
              refine ⟨fun c => { c with status := "bounced" }, ?_,
                fun c => ⟨rfl, Or.inr (by simp)⟩⟩
              simp [sendOne, hlead, hsup2, hstep, hpick, hok, hhb,
                DB.updateCL, DB.updateAccount, DB.updateLead]
            · have hhb2 : isHardBounceError o.sendResult.2 = false := by
                simpa using hhb
              left
              simp [sendOne, hlead, hsup2, hstep, hpick, hok, hhb2,
                DB.updateAccount]

/-- C7: candidate selection only ever returns (CampaignLead, Campaign)
pairs whose statuses are both `active`, and no `_send_one` outcome ever
writes status `active` into a campaign-lead row — any row that is
`active` after a dispatch attempt was already `active` before it.
Together these give that a link in `unsubscribed`, `bounced` or any
other terminal status is never selected and never reactivated by the
worker. -/
theorem c7_terminal_never_redispatched :
    (∀ (db : DB) (now : Nat), ∀ p ∈ getPendingLeads db now,
        p.1.status = "active" ∧ p.2.status = "active")
    ∧ (∀ (o : Oracles) (now : Nat) (db : DB) (cl : CampaignLead) (campaign : Campaign),
        ∀ cl' ∈ (sendOne o now db cl campaign).campaignLeads, cl'.status = "active" →
          ∃ cl0 ∈ db.campaignLeads, cl0.id = cl'.id ∧ cl0.status = "active") := by
  constructor
  · intro db now p hp
    have h1 := List.take_subset 20 _ hp
    have h2 := (List.mem_filter.mp h1).2
    simp only [Bool.and_eq_true, beq_iff_eq] at h2
    exact ⟨h2.1.2, h2.1.1⟩
  · intro o now db cl campaign cl' hmem hact
    rcases sendOne_campaignLeads_cases o now db cl campaign with h | ⟨f, hmap, hf⟩
    · rw [h] at hmem
      exact ⟨cl', hmem, rfl, hact⟩
    · rw [hmap] at hmem
      rcases List.mem_map.mp hmem with ⟨c0, hc0, heq⟩
      by_cases hid : (c0.id == cl.id) = true
      · rw [if_pos hid] at heq
        subst heq
        rcases (hf c0).2 with hs | hs
        · exact ⟨c0, hc0, ((hf c0).1).symm, hs.symm.trans hact⟩
        · rw [hact] at hs
          exact absurd hs (by decide)
      · rw [if_neg hid] at heq
        subst heq
        exact ⟨c0, hc0, rfl, hact⟩

/-- C7, witness: the concrete fixture's only due pair has both statuses
`active`. -/
theorem c7_terminal_never_redispatched_witness :
    clA.status = "active" ∧ campA.status = "active" :=
  c7_terminal_never_redispatched.1 dbFix 1000 (clA, campA) (by decide)

/-- The claim's template, a spin group followed by a placeholder. -/
def spinTemplate : String := "\x7bHi|Hey\x7d \x7b\x7bfirst_name\x7d\x7d"

/-- A lead whose only populated template field is `first_name = "Sam"`. -/
def samLead : LeadData :=
  { first_name := "Sam", last_name := "", email := "", company := "", title := "",
    website := "", phone := "", city := "", state := "", country := "", industry := "",
    custom_fields := [] }

/-- C9: for every draw of the spintax alternative oracle, rendering the
claim's template with `first_name = "Sam"` yields exactly "Hi Sam" or
"Hey Sam" — in particular the output never retains the placeholder or
the spin group. -/
theorem c9_spintax_first_name (choice : List String → String)
    (h : ∀ l, l ≠ [] → choice l ∈ l) :
    renderTemplate choice spinTemplate samLead none = "Hi Sam" ∨
    renderTemplate choice spinTemplate samLead none = "Hey Sam" := by
  have h2 := h ["Hi", "Hey"] (by simp)
  have estart : renderTemplate choice spinTemplate samLead none
      = String.mk (restoreBraces (spinLoop choice 10 ("\x7bHi|Hey\x7d Sam").data)) := by
    with_unfolding_all rfl
  have estep : spinLoop choice 10 ("\x7bHi|Hey\x7d Sam").data
      = spinLoop choice 9 (trimChars (choice ["Hi", "Hey"]).data ++ (" Sam").data) := rfl
  rcases List.mem_cons.mp h2 with he | he2
  · left
    rw [estart, estep, he]
    with_unfolding_all rfl
  · have he : choice ["Hi", "Hey"] = "Hey" := by simpa using he2
    right
    rw [estart, estep, he]
    with_unfolding_all rfl

/-- The head-picking alternative oracle. -/
def headChoice : List String → String := fun l => l.headD ""

/-- C9, witness: with the head-picking oracle the rendering lands on one
of the claim's two outputs. -/
theorem c9_spintax_first_name_witness :
    renderTemplate headChoice spinTemplate samLead none = "Hi Sam" ∨
    renderTemplate headChoice spinTemplate samLead none = "Hey Sam" :=
  c9_spintax_first_name headChoice (by
    intro l hl
    cases l with
    | nil => exact absurd rfl hl
    | cons a t => simp [headChoice])

end ColdOutreach
